import Mathlib

/-!
Shallow embedding of the muxrpc session layer (rpc.go and packer.go).

Machine int32 values are modelled as Int together with the wraparound
function wrap32; Go signed arithmetic wraps, so `r.highest + 1` and
`-pkt.Req` in the source are `wrap32 (h + 1)` and `wrap32 (-x)` here.
External collaborators (the JSON codec, the luigi pipe, the Stream
close operations, the wire reader and writer) are passed in as oracle
values or oracle functions: the embedding quantifies over their
outcomes exactly where the source consumes their results.
-/

namespace Muxrpc

/-- Two to the 31st, the int32 sign boundary. -/
def i31 : Int := 2147483648

/-- Go int32 wraparound: the representative of n modulo 2^32 that lies
in the interval from -2^31 to 2^31 - 1. -/
def wrap32 (n : Int) : Int := (n + i31) % (2 * i31) - i31

/-- Go int32 negation, as performed by `pkt.Req = -pkt.Req`. -/
def neg32 (n : Int) : Int := wrap32 (-n)

/-- The value n is a representable int32. -/
def Int32Range (n : Int) : Prop := -i31 ≤ n ∧ n < i31

/-- codec.Flag: a bitset over JSON, Stream, EndErr and the four call
type bits (spec section 3 data model; the codec package is external). -/
structure Flag where
  json : Bool
  stream : Bool
  endErr : Bool
  tAsync : Bool
  tSource : Bool
  tSink : Bool
  tDuplex : Bool
deriving DecidableEq

/-- The all-clear flag value (zero bitset). -/
def flagZero : Flag := ⟨false, false, false, false, false, false, false⟩

/-- Flag.Set: bitwise union of two flag bitsets. -/
def Flag.set (f g : Flag) : Flag :=
  ⟨f.json || g.json, f.stream || g.stream, f.endErr || g.endErr,
   f.tAsync || g.tAsync, f.tSource || g.tSource, f.tSink || g.tSink,
   f.tDuplex || g.tDuplex⟩

/-- codec.Packet: flags, signed 32-bit request id, body bytes. -/
structure Packet where
  flag : Flag
  req : Int
  body : List Nat
deriving DecidableEq

/-- The Stream bound to a request: its id binding and which directions
are open for streaming (the pipe and transport handles it closes over
are external). -/
structure Stream where
  req : Int
  inStream : Bool
  outStream : Bool
deriving DecidableEq

/-- NewStream(inSrc, pkr, req, inStream, outStream), keeping the fields
the session layer sets. -/
def NewStream (req : Int) (inS outS : Bool) : Stream := ⟨req, inS, outS⟩

/-- Stream.WithReq: late binding of the request id onto the stream. -/
def Stream.WithReq (s : Stream) (r : Int) : Stream := ⟨r, s.inStream, s.outStream⟩

/-- CallError: name, message, stack (rpc.go). -/
structure CallError where
  name : String
  message : String
  stack : String
deriving DecidableEq

/-- The call envelope decoded from a JSON body: type, method path. -/
structure Envelope where
  type : String
  method : List String
deriving DecidableEq

/-- Request: one outstanding call as the session layer tracks it. -/
structure Request where
  type : String
  method : List String
  stream : Stream
deriving DecidableEq

/-- The rpc session state: the request table (id to Request), the
highest allocated local id, and the termination flag. -/
structure RpcState where
  reqs : List (Int × Request)
  highest : Int
  terminated : Bool
deriving DecidableEq

/-- A fresh session as built by Handle: empty table, counter at zero. -/
def initState : RpcState := ⟨[], 0, false⟩

/-- Map read r.reqs[k]. -/
def lookupReq (reqs : List (Int × Request)) (k : Int) : Option Request :=
  (reqs.find? (fun p => p.1 == k)).map (fun p => p.2)

/-- Map deletion delete(r.reqs, k). -/
def removeReq (reqs : List (Int × Request)) (k : Int) : List (Int × Request) :=
  reqs.filter (fun p => p.1 != k)

/-- Map write r.reqs[k] = v. -/
def insertReq (reqs : List (Int × Request)) (k : Int) (v : Request) :
    List (Int × Request) :=
  (k, v) :: removeReq reqs k

/-- isTrue (rpc.go): the body is exactly the four bytes t r u e. -/
def isTrue (data : List Nat) : Bool :=
  data.length == 4 && data.getD 0 0 == 116 && data.getD 1 0 == 114 &&
    data.getD 2 0 == 117 && data.getD 3 0 == 101

/-- The four bytes t r u e. -/
def trueBytes : List Nat := [116, 114, 117, 101]

/-- parseError (rpc.go): json.Unmarshal into a CallError (the JSON
decoder is external, passed as the oracle decodeCallError), then the
name field must be exactly the string Error. -/
def parseError (decodeCallError : List Nat → Option CallError)
    (data : List Nat) : Except String CallError :=
  match decodeCallError data with
  | none => .error "error unmarshaling error packet"
  | some e => if e.name != "Error" then .error "name is not \"Error\"" else .ok e

/-- packer read outcome: codec.Reader.ReadPacket either yields a packet,
hits physical end-of-file, or fails with another error. -/
inductive ReadResult where
  | ok (pkt : Packet)
  | eof
  | err (e : String)
deriving DecidableEq

/-- packer.Next outcome: a packet, the luigi end-of-stream sentinel, or
an error. -/
inductive NextResult where
  | pkt (p : Packet)
  | eos
  | err (e : String)
deriving DecidableEq

/-- packer.Next (packer.go): given whether Close has been requested
(the closing channel) and the ReadPacket outcome. A read error while
closing is suppressed to end-of-stream; end-of-file becomes
end-of-stream; on success the id is negated in place (int32 negation). -/
def packerNext (closing : Bool) (res : ReadResult) : NextResult :=
  match res with
  | .ok p => .pkt ⟨p.flag, neg32 p.req, p.body⟩
  | .eof => .eos
  | .err e => if closing then .eos else .err ("ReadPacket failed.: " ++ e)

/-- packer.Pour (packer.go): the value must be a packet (isPacket),
then WritePacket runs (its outcome is writeErr); if closing is in
flight the write error is swallowed and success reported. -/
def packerPour (closing : Bool) (isPacket : Bool) (writeErr : Option String) :
    Option String :=
  if !isPacket then some "packer sink expected type *codec.Packet"
  else if closing then none
  else writeErr

/-- Modelled from the spec: the method Flags of the request Type is
declared outside the two shown files. Per the spec (section 4.2, Do):
set the call type flag, plus the stream flag unless the type is async. -/
def typeFlags (t : String) : Flag :=
  ⟨false, t != "async", false,
   t == "async", t == "source", t == "sink", t == "duplex"⟩

/-- The outcome of one Do call: the session state after the critical
section, the error returned to the caller (none on success), the packet
handed to the transport (none when no send was attempted), and the id
allocated for the call. -/
structure DoResult where
  st : RpcState
  err : Option String
  sent : Option Packet
  id : Int
deriving DecidableEq

/-- rpc.Do (rpc.go): under the table lock, set the JSON and type flags,
JSON-encode the envelope (the encoder is external: marshal is its
outcome), allocate id highest + 1 (int32), record it as the new
highest, insert the request into the table, and bind the id onto the
request Stream. Only after the critical section is the marshal error
checked and returned; otherwise the packet goes to pkr.Pour, whose
outcome is the oracle pourErr. -/
def Do (marshal : Except String (List Nat)) (pourErr : Option String)
    (st : RpcState) (req : Request) : DoResult :=
  let f := (flagZero.set ⟨true, false, false, false, false, false, false⟩).set
    (typeFlags req.type)
  let newId := wrap32 (st.highest + 1)
  let req2 : Request := ⟨req.type, req.method, req.stream.WithReq newId⟩
  let st2 : RpcState := ⟨insertReq st.reqs newId req2, newId, st.terminated⟩
  match marshal with
  | .error e => ⟨st2, some e, none, newId⟩
  | .ok body =>
    let pkt : Packet := ⟨f, newId, body⟩
    match pourErr with
    | some e => ⟨st2, some e, some pkt, newId⟩
    | none => ⟨st2, none, some pkt, newId⟩

/-- rpc.ParseRequest (rpc.go): requires the JSON flag and a negative
id; decodes the envelope (the JSON decoder is external: decodeBody is
its outcome on the body); when the Stream flag is set, duplex opens
both directions, source opens remote-to-local, sink opens
local-to-remote, and any other type is rejected; when the Stream flag
is clear both directions stay closed. -/
def ParseRequest (decodeBody : List Nat → Option Envelope) (pkt : Packet) :
    Except String Request :=
  if !pkt.flag.json then .error "expected JSON flag"
  else if pkt.req ≥ 0 then .error "expected negative request id"
  else match decodeBody pkt.body with
  | none => .error "error decoding packet"
  | some env =>
    if pkt.flag.stream then
      match env.type with
      | "duplex" => .ok ⟨env.type, env.method, NewStream pkt.req true true⟩
      | "source" => .ok ⟨env.type, env.method, NewStream pkt.req false true⟩
      | "sink" => .ok ⟨env.type, env.method, NewStream pkt.req true false⟩
      | _ => .error "unhandled request type"
    else .ok ⟨env.type, env.method, NewStream pkt.req false false⟩

/-- Outcome of fetchRequest: the pre-existing request, or a newly
parsed and registered one (whose HandleCall task is spawned), or the
parse failure. -/
inductive FetchResult where
  | existing (req : Request)
  | created (st : RpcState) (req : Request)
  | failed (e : String)
deriving DecidableEq

/-- rpc.fetchRequest (rpc.go): under the table lock, return the request
from the map if present; otherwise parse the packet as a new request,
register it under the packet id, and spawn HandleCall for it. -/
def fetchRequest (decodeBody : List Nat → Option Envelope)
    (st : RpcState) (pkt : Packet) : FetchResult :=
  match lookupReq st.reqs pkt.req with
  | some req => .existing req
  | none =>
    match ParseRequest decodeBody pkt with
    | .error e => .failed ("error parsing request: " ++ e)
    | .ok req => .created ⟨insertReq st.reqs pkt.req req, st.highest, st.terminated⟩ req

/-- rxTimeout (rpc.go): one millisecond, in nanoseconds as Go durations
are counted. -/
def rxTimeout : Nat := 1000000

/-- One millisecond in nanoseconds (time.Millisecond). -/
def millisecond : Nat := 1000000

/-- Outcome of one iteration of the Serve dispatch loop on one packet:
continue with a possibly updated state, continue after registering a
new request and spawning its handler task, or return from Serve with a
fatal error. -/
inductive StepResult where
  | next (st : RpcState)
  | spawned (st : RpcState) (req : Request)
  | fatal (e : String)
deriving DecidableEq

/-- The external collaborators one Serve iteration may consume: the two
JSON decoders, the results of the pipe and Stream close operations for
the request the packet addresses, and the result of pouring into the
pipe under a deadline (given the timeout in nanoseconds). -/
structure ServeOracles where
  decodeBody : List Nat → Option Envelope
  decodeCallError : List Nat → Option CallError
  closeIn : Option String
  closeStream : Option String
  closeWithError : Option String
  pour : Nat → Option String

/-- The tail of a Serve iteration (rpc.go): fetch or create the
request; a fetch failure is fatal; a newly created request ends the
iteration; for a pre-existing request the packet is poured into its
pipe under the rxTimeout deadline, and a pour failure is fatal. -/
def serveFallthrough (o : ServeOracles) (st : RpcState) (pkt : Packet) :
    StepResult :=
  match fetchRequest o.decodeBody st pkt with
  | .failed e => .fatal ("error getting request: " ++ e)
  | .created st2 req => .spawned st2 req
  | .existing _ =>
    match o.pour rxTimeout with
    | some e => .fatal ("error pouring data to handler: " ++ e)
    | none => .next st

/-- One iteration of rpc.Serve (rpc.go) on a packet already read from
the transport. If the packet is flagged EndErr and its id is in the
table: body exactly true closes the pipe then the Stream, any other
body is parsed as a CallError and the pipe is closed with that error,
each failure along the way is fatal, and on success the id is deleted
from the table. An EndErr packet whose id is absent falls through to
the fetchRequest path, as does every packet not flagged EndErr. -/
def serveStep (o : ServeOracles) (st : RpcState) (pkt : Packet) : StepResult :=
  if pkt.flag.endErr then
    match lookupReq st.reqs pkt.req with
    | some _ =>
      if isTrue pkt.body then
        match o.closeIn with
        | some e => .fatal ("error closing pipe sink: " ++ e)
        | none =>
          match o.closeStream with
          | some e => .fatal ("error closing stream: " ++ e)
          | none => .next ⟨removeReq st.reqs pkt.req, st.highest, st.terminated⟩
      else
        match parseError o.decodeCallError pkt.body with
        | .error e => .fatal ("error parsing error packet: " ++ e)
        | .ok _ =>
          match o.closeWithError with
          | some e => .fatal ("error closing pipe sink with error: " ++ e)
          | none => .next ⟨removeReq st.reqs pkt.req, st.highest, st.terminated⟩
    | none => serveFallthrough o st pkt
  else serveFallthrough o st pkt

/-- One outbound call as issued through Do: the marshal outcome of its
envelope, the transport pour outcome, and the request value. -/
structure CallSpec where
  marshal : Except String (List Nat)
  pourErr : Option String
  req : Request

/-- The request ids allocated by a sequence of Do calls on one session,
threading the session state through. -/
def doIds (st : RpcState) : List CallSpec → List Int
  | [] => []
  | c :: cs =>
    let r := Do c.marshal c.pourErr st c.req
    r.id :: doIds r.st cs

/-- 2^31 as a natural number. -/
def n31 : Nat := 2147483648

/-- A stream not yet bound to an id. -/
def streamZero : Stream := ⟨0, false, false⟩

/-- A minimal request value used as concrete input. -/
def req0 : Request := ⟨"async", [], streamZero⟩

/-- A Do call whose marshal and pour both succeed. -/
def call0 : CallSpec := ⟨.ok [], none, req0⟩

/-- Flag bits JSON and EndErr, as on a termination packet. -/
def flagEndErrJson : Flag := ⟨true, false, true, false, false, false, false⟩

/-- Flag bit JSON alone, as on a plain data packet. -/
def flagJson : Flag := ⟨true, false, false, false, false, false, false⟩

/-- Flag bits JSON and Stream. -/
def flagJsonStream : Flag := ⟨true, true, false, false, false, false, false⟩

/-- A termination packet (EndErr, JSON, body true) for id -1. -/
def pkt1 : Packet := ⟨flagEndErrJson, -1, trueBytes⟩

/-- Oracles in which every external operation succeeds; the body
decoder returns none because json.Unmarshal of the JSON boolean true
into a Request struct fails. -/
def oracles1 : ServeOracles :=
  ⟨fun _ => none, fun _ => none, none, none, none, fun _ => none⟩

/-- A session state whose table maps id 1 to req0, counter at 1. -/
def st1 : RpcState := ⟨[(1, req0)], 1, false⟩

/-- A clean termination packet for the registered id 1. -/
def pkt2 : Packet := ⟨flagEndErrJson, 1, trueBytes⟩

/-- A plain data packet for the registered id 1. -/
def pkt7 : Packet := ⟨flagJson, 1, []⟩

/-- Oracles in which the pipe pour times out with an error while
everything else succeeds. -/
def oracles7 : ServeOracles :=
  ⟨fun _ => none, fun _ => none, none, none, none, fun _ => some "context deadline exceeded"⟩

/-- A decoded source-call envelope. -/
def envSource : Envelope := ⟨"source", ["blobs"]⟩

/-- A body decoder that yields the source envelope. -/
def decSource : List Nat → Option Envelope := fun _ => some envSource

/-- An inbound first packet with JSON and Stream flags, id -2. -/
def pkt4w : Packet := ⟨flagJsonStream, -2, []⟩

/-- A decoded duplex-call envelope. -/
def envDuplex : Envelope := ⟨"duplex", []⟩

/-- A body decoder that yields the duplex envelope. -/
def decDuplex : List Nat → Option Envelope := fun _ => some envDuplex

/-- An inbound first packet with the JSON flag but the Stream flag
clear, id -1. -/
def pkt4c : Packet := ⟨flagJson, -1, []⟩

/-- A wire packet carrying the most negative int32 id. -/
def pktMin : Packet := ⟨flagJson, -i31, []⟩

/-- A wire packet with id -5. -/
def pkt6 : Packet := ⟨flagJson, -5, []⟩

end Muxrpc

namespace Muxrpc

theorem wrap32_add_left (a b : Int) : wrap32 (wrap32 a + b) = wrap32 (a + b) := by
  unfold wrap32 i31; omega

theorem wrap32_eq_self (n : Int) (h1 : -i31 ≤ n) (h2 : n < i31) : wrap32 n = n := by
  unfold wrap32 at *; unfold i31 at *; omega

theorem lookupReq_insertReq (l : List (Int × Request)) (k : Int) (v : Request) :
    lookupReq (insertReq l k v) k = some v := by
  simp [lookupReq, insertReq, List.find?]

theorem Do_id (m : Except String (List Nat)) (p : Option String)
    (st : RpcState) (req : Request) :
    (Do m p st req).id = wrap32 (st.highest + 1) := by
  unfold Do
  cases m with
  | error e => rfl
  | ok b => cases p <;> rfl

theorem Do_st (m : Except String (List Nat)) (p : Option String)
    (st : RpcState) (req : Request) :
    (Do m p st req).st =
      ⟨insertReq st.reqs (wrap32 (st.highest + 1))
        ⟨req.type, req.method, req.stream.WithReq (wrap32 (st.highest + 1))⟩,
       wrap32 (st.highest + 1), st.terminated⟩ := by
  unfold Do
  cases m with
  | error e => rfl
  | ok b => cases p <;> rfl

/-- Claim C5: the packet transport maps physical end-of-file to the
end-of-stream sentinel; any other read error is returned as an error
unless a close has been requested, in which case Next yields the
end-of-stream sentinel instead; and Pour reports success in place of a
write failure whenever a close is in flight, otherwise it returns the
write result. -/
theorem claim_C5 (e w : String) (b : Bool) :
    packerNext b .eof = .eos ∧
    packerNext true (.err e) = .eos ∧
    packerNext false (.err e) = .err ("ReadPacket failed.: " ++ e) ∧
    packerPour true true (some w) = none ∧
    packerPour false true (some w) = some w ∧
    packerPour false true none = none :=
  ⟨rfl, rfl, rfl, rfl, rfl, rfl⟩

/-- Claim C9: error parsing produces a CallError value exactly when the
bytes decode as JSON (the decoder oracle yields a value) and the
decoded name field is exactly the string Error; any other name yields a
rejection error, not a usable CallError. -/
theorem claim_C9 (dec : List Nat → Option CallError) (data : List Nat) (ce : CallError) :
    parseError dec data = .ok ce ↔ dec data = some ce ∧ ce.name = "Error" := by
  unfold parseError
  cases h : dec data with
  | none => simp
  | some e =>
    by_cases hn : e.name = "Error"
    · simp [hn]
      intro he
      rw [← he, hn]
    · simp [hn]
      intro he
      rw [he] at hn
      exact hn

/-- Claim C6 counterexample: for the wire packet carrying the most
negative int32 id, Next returns the packet with its id unchanged, while
the mathematical negation of that id is a different integer; Go int32
negation wraps at the boundary, so the returned id is not the negation
of the id that arrived on the wire. -/
theorem claim_C6_counterexample :
    packerNext false (.ok pktMin) = .pkt pktMin ∧ pktMin.req ≠ -pktMin.req := by
  decide

/-- Claim C6 (amended): for every packet successfully read, the id of
the returned packet is the int32 two-complement negation of the wire
id, which coincides with the mathematical negation whenever the wire id
is not the minimal int32, and the flag and body are unchanged. -/
theorem claim_C6_amended (c : Bool) (p : Packet) (h : Int32Range p.req) :
    packerNext c (.ok p) = .pkt ⟨p.flag, neg32 p.req, p.body⟩ ∧
    (p.req ≠ -i31 → neg32 p.req = -p.req) := by
  refine ⟨rfl, fun hne => ?_⟩
  obtain ⟨h1, h2⟩ := h
  unfold neg32 wrap32 i31 at *
  omega

/-- Witness for claim C6 (amended) at the concrete packet with id -5. -/
theorem claim_C6_amended_witness :
    Int32Range pkt6.req ∧ neg32 pkt6.req = -pkt6.req := by
  have hrange : Int32Range pkt6.req := by
    unfold Int32Range
    exact ⟨by decide, by decide⟩
  exact ⟨hrange, (claim_C6_amended false pkt6 hrange).2 (by decide)⟩

/-- Claim C1 evaluated at the failing input: an inbound EndErr packet
whose id is absent from an empty request table is not ignored; the
dispatch step falls through to fetchRequest, whose ParseRequest fails
to decode the termination body true as a call envelope (the decoder
oracle returns none, as json.Unmarshal of a JSON boolean into a struct
fails), so Serve returns a non-nil error and the loop ends. -/
theorem claim_C1_codebug :
    serveStep oracles1 initState pkt1 =
      .fatal "error getting request: error parsing request: error decoding packet" := by
  rfl

end Muxrpc

namespace Muxrpc

/-- Claim C2: for an inbound EndErr packet whose id is in the request
table, a body of exactly the four bytes true closes the pipe and the
Stream cleanly, any other body is parsed as a CallError and the pipe is
closed with that error, both success branches remove the id from the
table, and a failure in any closing step makes Serve return that
error. -/
theorem claim_C2 (o : ServeOracles) (st : RpcState) (pkt : Packet) (req : Request)
    (hEnd : pkt.flag.endErr = true)
    (hReq : lookupReq st.reqs pkt.req = some req) :
    (isTrue pkt.body = true →
      (o.closeIn = none → o.closeStream = none →
        serveStep o st pkt = .next ⟨removeReq st.reqs pkt.req, st.highest, st.terminated⟩) ∧
      (∀ e, o.closeIn = some e →
        serveStep o st pkt = .fatal ("error closing pipe sink: " ++ e)) ∧
      (∀ e, o.closeIn = none → o.closeStream = some e →
        serveStep o st pkt = .fatal ("error closing stream: " ++ e))) ∧
    (isTrue pkt.body = false →
      (∀ e, parseError o.decodeCallError pkt.body = .error e →
        serveStep o st pkt = .fatal ("error parsing error packet: " ++ e)) ∧
      (∀ ce, parseError o.decodeCallError pkt.body = .ok ce →
        (o.closeWithError = none →
          serveStep o st pkt = .next ⟨removeReq st.reqs pkt.req, st.highest, st.terminated⟩) ∧
        (∀ e, o.closeWithError = some e →
          serveStep o st pkt = .fatal ("error closing pipe sink with error: " ++ e)))) := by
  constructor
  · intro hT
    refine ⟨?_, ?_, ?_⟩
    · intro h1 h2
      simp [serveStep, hEnd, hReq, hT, h1, h2]
    · intro e h1
      simp [serveStep, hEnd, hReq, hT, h1]
    · intro e h1 h2
      simp [serveStep, hEnd, hReq, hT, h1, h2]
  · intro hT
    constructor
    · intro e hp
      simp [serveStep, hEnd, hReq, hT, hp]
    · intro ce hp
      constructor
      · intro h1
        simp [serveStep, hEnd, hReq, hT, hp, h1]
      · intro e h1
        simp [serveStep, hEnd, hReq, hT, hp, h1]

/-- Witness for claim C2: a clean termination packet for the registered
id 1 with all close operations succeeding removes the id and
continues. -/
theorem claim_C2_witness :
    serveStep oracles1 st1 pkt2 =
      .next ⟨removeReq st1.reqs pkt2.req, st1.highest, st1.terminated⟩ :=
  ((claim_C2 oracles1 st1 pkt2 req0 rfl rfl).1 rfl).1 rfl rfl

/-- Claim C7: the inbound delivery deadline rxTimeout is one
millisecond, and for a non-EndErr packet whose id has a registered
request, a pour into the pipe that fails under that deadline makes
Serve return a non-nil error, ending the dispatch loop. -/
theorem claim_C7 (o : ServeOracles) (st : RpcState) (pkt : Packet) (req : Request)
    (e : String)
    (hEnd : pkt.flag.endErr = false)
    (hReq : lookupReq st.reqs pkt.req = some req)
    (hPour : o.pour rxTimeout = some e) :
    rxTimeout = millisecond ∧ millisecond = 1000000 ∧
    serveStep o st pkt = .fatal ("error pouring data to handler: " ++ e) := by
  refine ⟨rfl, rfl, ?_⟩
  simp [serveStep, serveFallthrough, fetchRequest, hEnd, hReq, hPour]

/-- Witness for claim C7: a data packet for the registered id 1 whose
pipe pour times out yields a fatal step outcome. -/
theorem claim_C7_witness :
    serveStep oracles7 st1 pkt7 =
      .fatal ("error pouring data to handler: " ++ "context deadline exceeded") :=
  (claim_C7 oracles7 st1 pkt7 req0 "context deadline exceeded" rfl rfl rfl).2.2

/-- Claim C4 (amended): ParseRequest succeeds only when the JSON flag
is set and the id is negative; on success the stream is bound to the
packet id, and the open directions are derived from the call type and
the Stream flag as follows: when the Stream flag is set, duplex opens
both directions, source opens remote-to-local, sink opens
local-to-remote, and no other type parses; when the Stream flag is
clear, neither side streams regardless of the type. -/
theorem claim_C4_amended (d : List Nat → Option Envelope) (pkt : Packet) (req : Request)
    (h : ParseRequest d pkt = .ok req) :
    pkt.flag.json = true ∧ pkt.req < 0 ∧ req.stream.req = pkt.req ∧
    (pkt.flag.stream = true →
      (req.type = "duplex" → req.stream.inStream = true ∧ req.stream.outStream = true) ∧
      (req.type = "source" → req.stream.inStream = false ∧ req.stream.outStream = true) ∧
      (req.type = "sink" → req.stream.inStream = true ∧ req.stream.outStream = false) ∧
      (req.type = "duplex" ∨ req.type = "source" ∨ req.type = "sink")) ∧
    (pkt.flag.stream = false →
      req.stream.inStream = false ∧ req.stream.outStream = false) := by
  unfold ParseRequest at h
  split at h
  · exact Except.noConfusion h
  case isFalse hj =>
  split at h
  · exact Except.noConfusion h
  case isFalse hneg =>
  refine ⟨by simpa using hj, by omega, ?_⟩
  split at h
  case h_1 heq => exact Except.noConfusion h
  case h_2 env heq =>
  split at h
  case isTrue hs =>
    split at h
    case h_1 x heqt =>
      injection h with h
      subst h
      refine ⟨rfl, fun _ => ⟨fun _ => ⟨rfl, rfl⟩, fun hc => ?_, fun hc => ?_,
        Or.inl heqt⟩, fun hc => ?_⟩
      · rw [heqt] at hc; simp at hc
      · rw [heqt] at hc; simp at hc
      · rw [hc] at hs; exact Bool.noConfusion hs
    case h_2 x heqt =>
      injection h with h
      subst h
      refine ⟨rfl, fun _ => ⟨fun hc => ?_, fun _ => ⟨rfl, rfl⟩, fun hc => ?_,
        Or.inr (Or.inl heqt)⟩, fun hc => ?_⟩
      · rw [heqt] at hc; simp at hc
      · rw [heqt] at hc; simp at hc
      · rw [hc] at hs; exact Bool.noConfusion hs
    case h_3 x heqt =>
      injection h with h
      subst h
      refine ⟨rfl, fun _ => ⟨fun hc => ?_, fun hc => ?_, fun _ => ⟨rfl, rfl⟩,
        Or.inr (Or.inr heqt)⟩, fun hc => ?_⟩
      · rw [heqt] at hc; simp at hc
      · rw [heqt] at hc; simp at hc
      · rw [hc] at hs; exact Bool.noConfusion hs
    case h_4 => exact Except.noConfusion h
  case isFalse hs =>
    injection h with h
    subst h
    exact ⟨rfl, fun hc => absurd hc hs, fun _ => ⟨rfl, rfl⟩⟩

/-- Witness for claim C4 (amended) at a source call packet with the
JSON and Stream flags and id -2. -/
theorem claim_C4_amended_witness :
    pkt4w.flag.json = true ∧ pkt4w.req < 0 := by
  have h : ParseRequest decSource pkt4w = .ok ⟨"source", ["blobs"], ⟨-2, false, true⟩⟩ := rfl
  have hc := claim_C4_amended decSource pkt4w _ h
  exact ⟨hc.1, hc.2.1⟩

/-- Claim C4 counterexample: a packet with the JSON flag set, the
Stream flag clear, a negative id, and a body decoding as a duplex
envelope parses successfully with neither direction streaming,
contradicting the claim that duplex always opens both directions. -/
theorem claim_C4_counterexample :
    ParseRequest decDuplex pkt4c = .ok ⟨"duplex", [], ⟨-1, false, false⟩⟩ ∧
    ¬((⟨"duplex", [], ⟨-1, false, false⟩⟩ : Request).stream.inStream = true ∧
      (⟨"duplex", [], ⟨-1, false, false⟩⟩ : Request).stream.outStream = true) :=
  ⟨rfl, by decide⟩

/-- Claim C8: when Do fails in the transport send, the error is
returned to the caller while the allocated id and the request remain
registered in the table and the counter keeps the allocated id, so the
id stays consumed. -/
theorem claim_C8 (st : RpcState) (req : Request) (body : List Nat) (e : String) :
    (Do (.ok body) (some e) st req).err = some e ∧
    lookupReq (Do (.ok body) (some e) st req).st.reqs (Do (.ok body) (some e) st req).id =
      some ⟨req.type, req.method, req.stream.WithReq (Do (.ok body) (some e) st req).id⟩ ∧
    (Do (.ok body) (some e) st req).st.highest = (Do (.ok body) (some e) st req).id := by
  refine ⟨rfl, ?_, ?_⟩
  · rw [Do_st, Do_id]
    exact lookupReq_insertReq st.reqs (wrap32 (st.highest + 1)) _
  · rw [Do_st, Do_id]

/-- Claim C10: when JSON-encoding of the call envelope fails, Do
returns the encoding error, no packet is handed to the transport, and
yet the counter has been incremented, the request registered under the
new id, and the id bound onto the request Stream. -/
theorem claim_C10 (st : RpcState) (req : Request) (e : String) (p : Option String) :
    (Do (.error e) p st req).err = some e ∧
    (Do (.error e) p st req).sent = none ∧
    (Do (.error e) p st req).id = wrap32 (st.highest + 1) ∧
    (Do (.error e) p st req).st.highest = wrap32 (st.highest + 1) ∧
    lookupReq (Do (.error e) p st req).st.reqs (wrap32 (st.highest + 1)) =
      some ⟨req.type, req.method, req.stream.WithReq (wrap32 (st.highest + 1))⟩ := by
  refine ⟨rfl, rfl, Do_id .., ?_, ?_⟩
  · rw [Do_st]
  · rw [Do_st]
    exact lookupReq_insertReq st.reqs (wrap32 (st.highest + 1)) _

end Muxrpc

namespace Muxrpc

theorem doIds_eq_range (calls : List CallSpec) :
    ∀ (a : Int) (st : RpcState), st.highest = wrap32 a →
    doIds st calls = (List.range calls.length).map (fun k : Nat => wrap32 (a + (k : Int) + 1)) := by
  induction calls with
  | nil => intro a st _; rfl
  | cons c cs ih =>
    intro a st hst
    have hid : (Do c.marshal c.pourErr st c.req).id = wrap32 (a + 1) := by
      rw [Do_id, hst, wrap32_add_left]
    have hh : (Do c.marshal c.pourErr st c.req).st.highest = wrap32 (a + 1) := by
      rw [Do_st]
      show wrap32 (st.highest + 1) = wrap32 (a + 1)
      rw [hst, wrap32_add_left]
    have htail := ih (a + 1) (Do c.marshal c.pourErr st c.req).st hh
    show (Do c.marshal c.pourErr st c.req).id ::
        doIds (Do c.marshal c.pourErr st c.req).st cs = _
    rw [hid, htail, List.length_cons, List.range_succ_eq_map, List.map_cons,
      List.map_map]
    congr 1
    · norm_num
    · apply List.map_congr_left
      intro k _
      show wrap32 (a + 1 + (k : Int) + 1) = wrap32 (a + ((Nat.succ k : Nat) : Int) + 1)
      congr 1
      push_cast
      ring

end Muxrpc

namespace Muxrpc

/-- Claim C3 (amended): each Do allocation is the int32 increment of
the counter, performed atomically with table insertion and with
recording the new counter value; for every sequence of at most
2^31 - 1 calls on a fresh session the allocated ids are exactly
1, 2, ..., n, strictly increasing and never repeated. Beyond that the
32-bit counter wraps, which is what the counterexample exhibits. -/
theorem claim_C3_amended (calls : List CallSpec) (h : calls.length ≤ n31 - 1) :
    doIds initState calls =
      (List.range calls.length).map (fun k : Nat => ((k : Int) + 1)) ∧
    List.Pairwise (fun a b : Int => a < b) (doIds initState calls) ∧
    (doIds initState calls).Nodup ∧
    ∀ (m : Except String (List Nat)) (p : Option String) (st : RpcState) (req : Request),
      (Do m p st req).id = wrap32 (st.highest + 1) ∧
      (Do m p st req).st.highest = (Do m p st req).id ∧
      lookupReq (Do m p st req).st.reqs (Do m p st req).id =
        some ⟨req.type, req.method, req.stream.WithReq (Do m p st req).id⟩ := by
  have hform := doIds_eq_range calls 0 initState (by decide)
  have hn : calls.length ≤ 2147483647 := by
    have h31 : n31 = 2147483648 := rfl
    omega
  have heq : doIds initState calls =
      (List.range calls.length).map (fun k : Nat => ((k : Int) + 1)) := by
    rw [hform]
    apply List.map_congr_left
    intro k hk
    rw [List.mem_range] at hk
    have hb1 : -i31 ≤ (0 : Int) + k + 1 := by
      have : i31 = (2147483648 : Int) := rfl
      omega
    have hb2 : (0 : Int) + k + 1 < i31 := by
      have : i31 = (2147483648 : Int) := rfl
      omega
    rw [wrap32_eq_self ((0 : Int) + k + 1) hb1 hb2]
    ring
  have hpair : List.Pairwise (fun a b : Int => a < b) (doIds initState calls) := by
    rw [heq, List.pairwise_map]
    exact (List.pairwise_lt_range _).imp (fun hab => by omega)
  refine ⟨heq, hpair, hpair.imp (fun hab => ne_of_lt hab), fun m p st req => ?_⟩
  refine ⟨Do_id .., by rw [Do_st, Do_id], ?_⟩
  rw [Do_st, Do_id]
  exact lookupReq_insertReq st.reqs (wrap32 (st.highest + 1)) _

/-- Witness for claim C3 (amended) on a two-call sequence. -/
theorem claim_C3_amended_witness :
    [call0, call0].length ≤ n31 - 1 ∧
    doIds initState [call0, call0] =
      (List.range [call0, call0].length).map (fun k : Nat => ((k : Int) + 1)) := by
  have h : [call0, call0].length ≤ n31 - 1 := by decide
  exact ⟨h, (claim_C3_amended [call0, call0] h).1⟩

/-- Claim C3 counterexample: on the concrete sequence of 2^31 calls on
one session, the id allocated by call number 2^31 - 1 is 2^31 - 1 while
the next call allocates -2^31, so the allocated ids are not strictly
increasing: the int32 counter wraps. -/
theorem claim_C3_counterexample :
    (doIds initState (List.replicate n31 call0))[n31 - 2]? = some (i31 - 1) ∧
    (doIds initState (List.replicate n31 call0))[n31 - 1]? = some (-i31) ∧
    ¬ List.Pairwise (fun a b : Int => a < b)
      (doIds initState (List.replicate n31 call0)) := by
  have hform := doIds_eq_range (List.replicate n31 call0) 0 initState (by decide)
  rw [List.length_replicate] at hform
  refine ⟨?_, ?_, ?_⟩
  · rw [hform, List.getElem?_map,
      List.getElem?_range (show n31 - 2 < n31 by decide)]
    decide
  · rw [hform, List.getElem?_map,
      List.getElem?_range (show n31 - 1 < n31 by decide)]
    decide
  · intro hp
    rw [hform, List.pairwise_map] at hp
    have h2 := List.pairwise_iff_getElem.mp hp (n31 - 2) (n31 - 1)
      (by rw [List.length_range]; decide)
      (by rw [List.length_range]; decide)
      (by decide)
    rw [List.getElem_range, List.getElem_range] at h2
    revert h2
    decide

end Muxrpc
